import Mathlib

/-!
Verification of the live-weather dashboard (src/app.py) against its
specification. The Python module is shallowly embedded: Python scalar
values that flow through the render pipeline become `PyVal`, JSON
responses become structures of optional fields, the Streamlit calls
each render path performs become an explicit list of `UIAction`s, and
dates are rata-die day counts with proleptic-Gregorian conversions
modelling CPython datetime arithmetic and strftime.
-/

/-- Python scalar values as they occur in the JSON payloads handled by
app.py: None, ints, and floats. Floats are carried as exact rationals;
only values whose CPython shortest repr is an exact short decimal flow
through the rendering claims, so a decimal-exact printer is faithful. -/
inductive PyVal where
  | pyNone : PyVal
  | pyInt (n : Int) : PyVal
  | pyFloat (q : Rat) : PyVal
deriving DecidableEq

/-- Decimal digits of num/den (num < den), with enough fuel for every
value in play; stops when the remainder is zero, mirroring the shortest
exact decimal expansion. -/
def fracDigits : Nat → Nat → Nat → String
  | 0, _, _ => ""
  | _, 0, _ => ""
  | fuel + 1, num, den =>
      let num10 := num * 10
      toString (num10 / den) ++ fracDigits fuel (num10 % den) den

/-- Models CPython str() on the scalar values the dashboard formats into
f-strings: str(None) = "None", str(12) = "12", str(21.5) = "21.5". -/
def pyStr : PyVal → String
  | PyVal.pyNone => "None"
  | PyVal.pyInt n => toString n
  | PyVal.pyFloat q =>
      let sign := if q < 0 then "-" else ""
      let a := if q < 0 then -q else q
      let ip := a.num.toNat / a.den
      let rem := a.num.toNat % a.den
      let fr := fracDigits 17 rem a.den
      sign ++ toString ip ++ "." ++ (if fr = "" then "0" else fr)

/-- The WEATHER_ICONS dict of app.py, in source order, as an association
list from WMO code to emoji glyph. -/
def WEATHER_ICONS : List (Int × String) :=
  [(0, "☀️"), (1, "🌤️"), (2, "⛅️"), (3, "☁️"),
   (45, "🌫️"), (48, "🌫️"),
   (51, "🌦️"), (53, "🌦️"), (55, "🌦️"),
   (56, "🌨️"), (57, "🌨️"),
   (61, "🌧️"), (63, "🌧️"), (65, "🌧️"),
   (66, "🌨️"), (67, "🌨️"),
   (71, "❄️"), (73, "❄️"), (75, "❄️"),
   (77, "❄️"),
   (80, "🌧️"), (81, "🌧️"), (82, "🌧️"),
   (85, "❄️"), (86, "❄️"),
   (95, "⛈️"), (96, "⛈️"), (99, "⛈️")]

/-- Python dict-key equality of a looked-up PyVal against an int key:
ints and equal-valued floats match, None never matches any int key. -/
def pyKeyEq (v : PyVal) (k : Int) : Bool :=
  match v with
  | PyVal.pyInt n => n == k
  | PyVal.pyFloat q => q == (k : Rat)
  | PyVal.pyNone => false

/-- get_weather_icon of app.py: WEATHER_ICONS.get(weather_code, the
question-mark glyph). The argument is whatever value the dict lookup in
tab1 produced, so it may be None. -/
def get_weather_icon (weather_code : PyVal) : String :=
  match WEATHER_ICONS.find? (fun p => pyKeyEq weather_code p.1) with
  | some p => p.2
  | none => "❓"

/-- Every glyph get_weather_icon can ever return: the table glyphs plus
the unknown sentinel. -/
def allGlyphs : List String := List.map Prod.snd WEATHER_ICONS ++ ["❓"]

/-- One geocoding match, as in the results array of the geocoding API:
latitude, longitude, and an optional country. -/
structure GeoResult where
  latitude : Rat
  longitude : Rat
  country : Option String
deriving DecidableEq

/-- The geocoding response body: the results key is optional and holds a
list of matches, mirroring the containment test in get_coordinates. -/
structure GeoResponse where
  results : Option (List GeoResult)
deriving DecidableEq

/-- Outcome of the guarded HTTP call in get_coordinates: either
requests.get / raise_for_status threw a RequestException with some
rendered cause, or a JSON body was obtained. -/
inductive GeoOutcome where
  | httpFailure (cause : String) : GeoOutcome
  | success (data : GeoResponse) : GeoOutcome

/-- What a call to get_coordinates observably produces: the returned
triple, with none standing for the Python triple (None, None, None),
and the list of st.error messages the call emitted. -/
structure CoordReturn where
  value : Option (Rat × Rat × String)
  errors : List String
deriving DecidableEq

/-- get_coordinates of app.py, given the outcome of its HTTP call: on a
body with a nonempty results list it returns the first match fields
(country defaulting to the empty string); on an absent or empty results
list it returns the None triple; on a RequestException it emits the
geocoding error message and returns the None triple. -/
def get_coordinates (o : GeoOutcome) : CoordReturn :=
  match o with
  | GeoOutcome.httpFailure cause =>
      { value := none, errors := ["Error during geocoding: " ++ cause] }
  | GeoOutcome.success data =>
      match data.results with
      | some (location :: _) =>
          { value := some (location.latitude, location.longitude,
              location.country.getD ""),
            errors := [] }
      | _ => { value := none, errors := [] }

/-- The fetch_weather_data calls the main block issues for one geocoding
outcome: two calls (current then historical) when the returned latitude
and longitude are not None, none otherwise. Each call is recorded as
(latitude, longitude, is the historical flag set). -/
def mainWeatherCalls (g : GeoOutcome) : List (Rat × Rat × Bool) :=
  match (get_coordinates g).value with
  | some (lat, lon, _) => [(lat, lon, false), (lat, lon, true)]
  | none => []

/-- Days of a proleptic-Gregorian civil date since 0000-03-01, the day
arithmetic underlying CPython datetime; year is at least 1 and month in
1..12 for every date reachable from utcnow. -/
def civilToRd (y m d : Nat) : Nat :=
  let yAdj := if m ≤ 2 then y - 1 else y
  let mp := if m ≤ 2 then m + 9 else m - 3
  365 * yAdj + yAdj / 4 - yAdj / 100 + yAdj / 400 + (153 * mp + 2) / 5 + (d - 1)

/-- Inverse conversion: civil (year, month, day) of a day count since
0000-03-01. -/
def rdToCivil (z : Nat) : Nat × Nat × Nat :=
  let era := z / 146097
  let doe := z % 146097
  let yoe := (doe - doe / 1460 + doe / 36524 - doe / 146096) / 365
  let y := yoe + era * 400
  let doy := doe - (365 * yoe + yoe / 4 - yoe / 100)
  let mp := (5 * doy + 2) / 153
  let d := doy - (153 * mp + 2) / 5 + 1
  let m := if mp < 10 then mp + 3 else mp - 9
  if m ≤ 2 then (y + 1, m, d) else (y, m, d)

/-- Zero-pad a number to two digits, as strftime does for month and day. -/
def pad2 (n : Nat) : String := if n < 10 then "0" ++ toString n else toString n

/-- Zero-pad a year to four digits, as CPython strftime does for %Y. -/
def pad4 (n : Nat) : String :=
  if n < 10 then "000" ++ toString n
  else if n < 100 then "00" ++ toString n
  else if n < 1000 then "0" ++ toString n
  else toString n

/-- strftime of a day count with the %Y-%m-%d format string of app.py. -/
def strftimeYMD (rd : Nat) : String :=
  let c := rdToCivil rd
  pad4 c.1 ++ "-" ++ pad2 c.2.1 ++ "-" ++ pad2 c.2.2

/-- A query-parameter value of the params dict built in
fetch_weather_data: a coordinate, a string, or an int. -/
inductive ParamVal where
  | pNum (q : Rat) : ParamVal
  | pStr (s : String) : ParamVal
  | pInt (n : Int) : ParamVal
deriving DecidableEq

/-- The params dict built by fetch_weather_data of app.py, in insertion
order, for a call whose datetime.utcnow() falls on day `today` (a day
count since 0000-03-01). timedelta(days = k) subtraction shifts the day
count by k. -/
def fetch_weather_data_params (latitude longitude : Rat)
    ( is_historical : Bool) (today : Nat) : List (String × ParamVal) :=
  let base := [("latitude", ParamVal.pNum latitude),
               ("longitude", ParamVal.pNum longitude)]
  if is_historical then
    base ++ [("start_date", ParamVal.pStr (strftimeYMD (today - 7))),
             ("end_date", ParamVal.pStr (strftimeYMD (today - 1))),
             ("daily", ParamVal.pStr "temperature_2m_max,temperature_2m_min,weather_code")]
  else
    base ++ [("current", ParamVal.pStr "temperature_2m,weather_code,precipitation_probability,wind_speed_10m"),
             ("hourly", ParamVal.pStr "temperature_2m,precipitation_probability,wind_speed_10m"),
             ("forecast_days", ParamVal.pInt 1)]

/-- The forecast JSON body as the two tabs read it: an optional current
block of scalar fields and an optional hourly block of named series. -/
structure ForecastPayload where
  current : Option (List (String × PyVal))
  hourly : Option (List (String × List PyVal))
deriving DecidableEq

/-- Python dict .get(k) on a scalar block: the stored value, or None
when the key is absent. -/
def dictGet (d : List (String × PyVal)) (k : String) : PyVal :=
  (List.lookup k d).getD PyVal.pyNone

/-- One observable Streamlit call made by a tab body. -/
inductive UIAction where
  | metric (label value : String) : UIAction
  | warning (msg : String) : UIAction
  | subheader (s : String) : UIAction
  | lineChart : UIAction
  | dataframe : UIAction
deriving DecidableEq

/-- The tab1 body of app.py (Current Conditions): with no forecast body
a warning; otherwise read the current block, and when temperature_2m is
not None render the three metric cards (temperature with icon, wind,
precipitation), else a warning. -/
def renderTab1 (forecast_data : Option ForecastPayload) : List UIAction :=
  match forecast_data with
  | some fd =>
      let current_weather := fd.current.getD []
      let current_temp := dictGet current_weather "temperature_2m"
      let current_weather_code := dictGet current_weather "weather_code"
      let weather_icon := get_weather_icon current_weather_code
      let precip_prob := dictGet current_weather "precipitation_probability"
      let wind_speed := dictGet current_weather "wind_speed_10m"
      if current_temp ≠ PyVal.pyNone then
        [UIAction.metric ("Temperature " ++ weather_icon) (pyStr current_temp ++ "°C"),
         UIAction.metric "Wind Speed 💨" (pyStr wind_speed ++ " km/h"),
         UIAction.metric "Precipitation Chance 💧" (pyStr precip_prob ++ "%")]
      else
        [UIAction.warning "Could not retrieve current conditions."]
  | none => [UIAction.warning "Could not retrieve forecast data."]

/-- The tab2 body of app.py (Hourly Forecast): with no forecast body a
warning; otherwise read the hourly block (default empty dict), and when
it is truthy and has a time key render the chart pipeline, else a
warning. -/
def renderTab2 (forecast_data : Option ForecastPayload) : List UIAction :=
  match forecast_data with
  | some fd =>
      let hourly_data := fd.hourly.getD []
      if !hourly_data.isEmpty && (List.lookup "time" hourly_data).isSome then
        [UIAction.subheader "Forecast for the Next 24 Hours",
         UIAction.lineChart, UIAction.dataframe]
      else
        [UIAction.warning "Could not retrieve hourly forecast data."]
  | none => [UIAction.warning "Could not retrieve forecast data."]

/-- Whatever get_weather_icon returns is a glyph of the table or the
unknown sentinel. -/
theorem get_weather_icon_mem_allGlyphs (v : PyVal) :
    get_weather_icon v ∈ allGlyphs := by
  unfold get_weather_icon
  cases h : WEATHER_ICONS.find? (fun p => pyKeyEq v p.1) with
  | none =>
      simp [allGlyphs]
  | some p =>
      have hp : p ∈ WEATHER_ICONS := List.mem_of_find?_eq_some h
      exact List.mem_append_left _ (List.mem_map_of_mem Prod.snd hp)

/-- Claim C1 counterexample: on an HTTP failure get_coordinates returns
the very same triple (None, None, None) that the empty-results case
returns, so the FetchError return value is not distinct from the
NotFound return value. -/
theorem c1_counterexample :
    (get_coordinates (GeoOutcome.httpFailure "connection error")).value
      = (get_coordinates (GeoOutcome.success { results := some [] })).value := rfl

/-- Claim C1 (amended): on an HTTP failure get_coordinates emits a
geocoding error message carrying the underlying cause, but its return
value is the None triple, identical to the return value of the
empty-results NotFound case; the two outcomes differ only in the
displayed message, not in the returned result. -/
theorem c1_fetch_error_same_triple (cause : String) :
    (get_coordinates (GeoOutcome.httpFailure cause)).errors
      = ["Error during geocoding: " ++ cause] ∧
    (get_coordinates (GeoOutcome.httpFailure cause)).value = none ∧
    (get_coordinates (GeoOutcome.httpFailure cause)).value
      = (get_coordinates (GeoOutcome.success { results := some [] })).value :=
  ⟨rfl, rfl, rfl⟩

/-- Claim C2: on a geocoding response whose results list is empty,
get_coordinates returns the None triple without raising and without an
error message of its own, and the main block issues no
fetch_weather_data call for that input. -/
theorem c2_empty_results_notfound (resp : GeoResponse)
    (h : resp.results = some []) :
    (get_coordinates (GeoOutcome.success resp)).value = none ∧
    (get_coordinates (GeoOutcome.success resp)).errors = [] ∧
    mainWeatherCalls (GeoOutcome.success resp) = [] := by
  simp [get_coordinates, mainWeatherCalls, h]

/-- Claim C2 witness at the concrete empty-results response. -/
theorem c2_empty_results_notfound_witness :
    ({ results := some [] } : GeoResponse).results = some [] ∧
    mainWeatherCalls (GeoOutcome.success { results := some [] }) = [] :=
  ⟨rfl, (c2_empty_results_notfound { results := some [] } rfl).2.2⟩

/-- Claim C3: the historical-mode params of fetch_weather_data carry
start_date = the call date minus 7 days and end_date = the call date
minus 1 day, both rendered through strftime %Y-%m-%d; at the call date
2024-06-15 these are the strings 2024-06-08 and 2024-06-14. -/
theorem c3_historical_window :
    (∀ (lat lon : Rat) (today : Nat), 7 ≤ today →
        List.lookup "start_date" (fetch_weather_data_params lat lon true today)
          = some (ParamVal.pStr (strftimeYMD (today - 7))) ∧
        List.lookup "end_date" (fetch_weather_data_params lat lon true today)
          = some (ParamVal.pStr (strftimeYMD (today - 1)))) ∧
    List.lookup "start_date" (fetch_weather_data_params 0 0 true (civilToRd 2024 6 15))
      = some (ParamVal.pStr "2024-06-08") ∧
    List.lookup "end_date" (fetch_weather_data_params 0 0 true (civilToRd 2024 6 15))
      = some (ParamVal.pStr "2024-06-14") :=
  ⟨fun _ _ _ _ => ⟨rfl, rfl⟩, by decide, by decide⟩

/-- Claim C3 witness: the day-count bound holds at the call date
2024-06-15 and the start_date of that call evaluates to 2024-06-08. -/
theorem c3_historical_window_witness :
    7 ≤ civilToRd 2024 6 15 ∧
    List.lookup "start_date" (fetch_weather_data_params 0 0 true (civilToRd 2024 6 15))
      = some (ParamVal.pStr (strftimeYMD (civilToRd 2024 6 15 - 7))) :=
  ⟨by decide, (c3_historical_window.1 0 0 (civilToRd 2024 6 15) (by decide)).1⟩

/-- Claim C4: get_weather_icon is total on integer codes, always
producing a glyph of the table or the unknown sentinel; code 0 gives
the sun glyph, 95 the thunderstorm glyph, and 12345 the sentinel. -/
theorem c4_icon_total :
    (∀ n : Int, get_weather_icon (PyVal.pyInt n) ∈ allGlyphs) ∧
    get_weather_icon (PyVal.pyInt 0) = "☀️" ∧
    get_weather_icon (PyVal.pyInt 95) = "⛈️" ∧
    get_weather_icon (PyVal.pyInt 12345) = "❓" :=
  ⟨fun n => get_weather_icon_mem_allGlyphs (PyVal.pyInt n), rfl, rfl, rfl⟩

/-- Claim C5: on a geocoding response with at least one result,
get_coordinates returns exactly the first result fields, with the
country defaulting to the empty string when absent. -/
theorem c5_first_result (resp : GeoResponse) (r : GeoResult)
    (rest : List GeoResult) (h : resp.results = some (r :: rest)) :
    (get_coordinates (GeoOutcome.success resp)).value
      = some (r.latitude, r.longitude, r.country.getD "") := by
  simp [get_coordinates, h]

/-- The single Lviv match of the concrete C5 instance. -/
def lvivResult : GeoResult :=
  { latitude := mkRat 4984 100, longitude := mkRat 2403 100, country := some "Ukraine" }

/-- Claim C5 witness: the one-result response with latitude 49.84,
longitude 24.03, country Ukraine yields exactly that triple. -/
theorem c5_first_result_witness :
    ({ results := some [lvivResult] } : GeoResponse).results = some [lvivResult] ∧
    (get_coordinates (GeoOutcome.success { results := some [lvivResult] })).value
      = some (mkRat 4984 100, mkRat 2403 100, "Ukraine") :=
  ⟨rfl, c5_first_result { results := some [lvivResult] } lvivResult [] rfl⟩

/-- The concrete forecast payload of claim C6: a current block with
temperature 21.5, weather code 3, precipitation probability 10 and wind
speed 12, and no hourly block. -/
def c6Payload : ForecastPayload :=
  { current := some [("temperature_2m", PyVal.pyFloat (mkRat 43 2)),
                     ("weather_code", PyVal.pyInt 3),
                     ("precipitation_probability", PyVal.pyInt 10),
                     ("wind_speed_10m", PyVal.pyInt 12)],
    hourly := none }

/-- Claim C6: on that payload the current view renders a temperature
metric 21.5°C labelled with the cloud glyph, a wind metric 12 km/h and
a precipitation metric 10%. -/
theorem c6_current_view_render :
    renderTab1 (some c6Payload) =
      [UIAction.metric "Temperature ☁️" "21.5°C",
       UIAction.metric "Wind Speed 💨" "12 km/h",
       UIAction.metric "Precipitation Chance 💧" "10%"] := by
  decide

/-- Claim C7: on a successful forecast payload whose hourly block is
absent or lacks a time key, the hourly view renders exactly a warning
and renderTab2 returns normally. -/
theorem c7_hourly_missing_warning (fd : ForecastPayload)
    (h : List.lookup "time" (fd.hourly.getD []) = none) :
    renderTab2 (some fd) =
      [UIAction.warning "Could not retrieve hourly forecast data."] := by
  simp [renderTab2, h]

/-- Claim C7 witness at the concrete payload with no hourly key. -/
theorem c7_hourly_missing_warning_witness :
    List.lookup "time" ((({ current := some [], hourly := none } : ForecastPayload)).hourly.getD []) = none ∧
    renderTab2 (some { current := some [], hourly := none }) =
      [UIAction.warning "Could not retrieve hourly forecast data."] :=
  ⟨rfl, c7_hourly_missing_warning { current := some [], hourly := none } rfl⟩

/-- Claim C8: for every coordinate pair and call date, the current-mode
params dict of fetch_weather_data is exactly latitude, longitude, the
current field list, the hourly field list, and forecast_days = 1, in
that order. -/
theorem c8_current_params (lat lon : Rat) (today : Nat) :
    fetch_weather_data_params lat lon false today =
      [("latitude", ParamVal.pNum lat),
       ("longitude", ParamVal.pNum lon),
       ("current", ParamVal.pStr "temperature_2m,weather_code,precipitation_probability,wind_speed_10m"),
       ("hourly", ParamVal.pStr "temperature_2m,precipitation_probability,wind_speed_10m"),
       ("forecast_days", ParamVal.pInt 1)] := rfl

/-- Claim C9: when the current block has a non-None temperature but no
wind_speed_10m and no precipitation_probability key, the current view
still renders the three metric cards, with the literal texts None km/h
and None% for the missing fields and no warning. -/
theorem c9_missing_fields_none_text (cur : List (String × PyVal))
    (hb : Option (List (String × List PyVal)))
    (ht : dictGet cur "temperature_2m" ≠ PyVal.pyNone)
    (hw : List.lookup "wind_speed_10m" cur = none)
    (hp : List.lookup "precipitation_probability" cur = none) :
    renderTab1 (some { current := some cur, hourly := hb }) =
      [UIAction.metric ("Temperature " ++ get_weather_icon (dictGet cur "weather_code"))
         (pyStr (dictGet cur "temperature_2m") ++ "°C"),
       UIAction.metric "Wind Speed 💨" "None km/h",
       UIAction.metric "Precipitation Chance 💧" "None%"] := by
  have hw2 : dictGet cur "wind_speed_10m" = PyVal.pyNone := by
    simp [dictGet, hw]
  have hp2 : dictGet cur "precipitation_probability" = PyVal.pyNone := by
    simp [dictGet, hp]
  simp only [renderTab1, Option.getD_some]
  rw [if_pos ht, hw2, hp2]
  rfl

/-- Claim C9 witness at a concrete current block holding only the
temperature and the weather code. -/
theorem c9_missing_fields_none_text_witness :
    dictGet [("temperature_2m", PyVal.pyFloat (mkRat 43 2)), ("weather_code", PyVal.pyInt 3)] "temperature_2m" ≠ PyVal.pyNone ∧
    renderTab1 (some { current := some [("temperature_2m", PyVal.pyFloat (mkRat 43 2)), ("weather_code", PyVal.pyInt 3)], hourly := none }) =
      [UIAction.metric "Temperature ☁️" "21.5°C",
       UIAction.metric "Wind Speed 💨" "None km/h",
       UIAction.metric "Precipitation Chance 💧" "None%"] :=
  ⟨by decide,
   by
    rw [c9_missing_fields_none_text
      [("temperature_2m", PyVal.pyFloat (mkRat 43 2)), ("weather_code", PyVal.pyInt 3)]
      none (by decide) rfl rfl]
    decide⟩

/-- Claim C10: get_weather_icon is total on arbitrary looked-up values,
not only ints: every result is a glyph, the None value maps to the
unknown sentinel, and a current block with a temperature but no
weather_code renders its temperature metric labelled with the sentinel
instead of failing. -/
theorem c10_icon_none_total :
    (∀ v : PyVal, get_weather_icon v ∈ allGlyphs) ∧
    get_weather_icon PyVal.pyNone = "❓" ∧
    renderTab1 (some { current := some [("temperature_2m", PyVal.pyFloat (mkRat 43 2))], hourly := none }) =
      [UIAction.metric "Temperature ❓" "21.5°C",
       UIAction.metric "Wind Speed 💨" "None km/h",
       UIAction.metric "Precipitation Chance 💧" "None%"] :=
  ⟨get_weather_icon_mem_allGlyphs, rfl, by decide⟩
